import Mathlib

/-!
Shallow embedding of the analytics / budget-reconciliation core of the
budget-track backend (src/src/services/analytics.service.ts,
src/src/services/budget.service.ts) together with the data model
(transaction / category / budget schemas).

Amounts are modelled as rationals (ℚ); JavaScript `Date` values are
modelled as a calendar structure (year, 1-based month, day, milliseconds
within the day) ordered lexicographically, which agrees with the
epoch-milliseconds order of real `Date` values on calendar-valid fields.
The query functions take the current time `now` as an explicit parameter
(the code calls `new Date()`), and the Mongo collections as explicit lists.
-/

/-- A JavaScript `Date`, decomposed: year, 1-based month, day of month,
and milliseconds elapsed within the day (time of day). -/
structure DateTime where
  year : Int
  month : Nat
  day : Nat
  ms : Nat
deriving DecidableEq, Repr

/-- Gregorian leap year test. -/
def isLeap (y : Int) : Bool :=
  (y.emod 4 == 0 && y.emod 100 != 0) || y.emod 400 == 0

/-- Number of days in a given month (1-based). -/
def daysInMonth (y : Int) (m : Nat) : Nat :=
  if m = 2 then (if isLeap y then 29 else 28)
  else if m = 4 ∨ m = 6 ∨ m = 9 ∨ m = 11 then 30
  else 31

/-- Comparison of `Date` values (epoch order = lexicographic on the
calendar fields for calendar-valid dates). -/
def dtLe (a b : DateTime) : Bool :=
  if a.year = b.year then
    if a.month = b.month then
      if a.day = b.day then a.ms ≤ b.ms
      else a.day < b.day
    else a.month < b.month
  else a.year < b.year

/-- `new Date(d.getFullYear(), d.getMonth(), 1)`: first day of `d`'s month,
at midnight. -/
def firstOfMonthOf (d : DateTime) : DateTime :=
  ⟨d.year, d.month, 1, 0⟩

/-- `new Date(d.getFullYear(), d.getMonth() + 1, 0)`: day 0 of the next
month, i.e. the last calendar day of `d`'s month — at midnight. -/
def endOfMonthOf (d : DateTime) : DateTime :=
  ⟨d.year, d.month, daysInMonth d.year d.month, 0⟩

/-- Normalize a (year, 0-based month index) pair where the index may be
out of range, as JS `Date` constructor arguments do. Returns the year and
the 1-based month. -/
def normYM (y : Int) (mIdx : Int) : Int × Nat :=
  let t := y * 12 + mIdx
  (t.ediv 12, (t.emod 12).toNat + 1)

/-- `new Date(now.getFullYear(), now.getMonth() - k, 1)`: first day of the
month `k` months before `now`'s month. -/
def firstOfMonthAgo (now : DateTime) (k : Nat) : DateTime :=
  let ym := normYM now.year ((now.month : Int) - 1 - (k : Int))
  ⟨ym.1, ym.2, 1, 0⟩

/-- `d.setMonth(d.getMonth() - k)`: move `k` months back keeping the day
of month and time of day, rolling a day overflow into the next month
(e.g. Mar 31 minus one month is Mar 3). -/
def setMonthSub (d : DateTime) (k : Nat) : DateTime :=
  let ym := normYM d.year ((d.month : Int) - 1 - (k : Int))
  let dim := daysInMonth ym.1 ym.2
  if d.day ≤ dim then ⟨ym.1, ym.2, d.day, d.ms⟩
  else
    let ym2 := normYM ym.1 (ym.2 : Int)
    ⟨ym2.1, ym2.2, d.day - dim, d.ms⟩

/-- `new Date(y, 0, 1)`: January 1st of year `y`. -/
def janFirst (y : Int) : DateTime := ⟨y, 1, 1, 0⟩

/-- Days since 1970-01-01 of a civil date (Gregorian), standard
era-based algorithm with floor division. -/
def daysFromCivil (y : Int) (m : Nat) (d : Nat) : Int :=
  let y2 : Int := if m ≤ 2 then y - 1 else y
  let era : Int := y2.ediv 400
  let yoe : Int := y2 - era * 400
  let mp : Int := ((m : Int) + 9).emod 12
  let doy : Int := (153 * mp + 2).ediv 5 + (d : Int) - 1
  let doe : Int := yoe * 365 + yoe.ediv 4 - yoe.ediv 100 + doy
  era * 146097 + doe - 719468

/-- Day of the week, 0 = Sunday (1970-01-01 was a Thursday). -/
def dayOfWeek (y : Int) (m : Nat) (d : Nat) : Int :=
  (daysFromCivil y m d + 4).emod 7

/-- Day of the year, 1-based. -/
def dayOfYear (y : Int) (m : Nat) (d : Nat) : Int :=
  daysFromCivil y m d - daysFromCivil y 1 1 + 1

/-- Mongo `$week`: weeks begin on Sundays; days before the first Sunday
of the year are week 0, and week 1 begins with the first Sunday. -/
def mongoWeek (dt : DateTime) : Int :=
  let jan1dow := dayOfWeek dt.year 1 1
  let firstSunday : Int := 1 + (7 - jan1dow).emod 7
  let doy := dayOfYear dt.year dt.month dt.day
  if doy < firstSunday then 0 else (doy - firstSunday).ediv 7 + 1

/-- Transaction type (`type` field of the transaction schema). -/
inductive TxType where
  | income
  | expense
deriving DecidableEq, Repr

/-- A stored transaction (fields the analytics core reads; the schema
requires `amount ≥ 0.01`). -/
structure Txn where
  userId : Nat
  date : DateTime
  category : String
  amount : ℚ
  type : TxType
deriving DecidableEq, Repr

/-- A stored category (fields the analytics core reads). -/
structure Cat where
  userId : Nat
  name : String
  color : String
  icon : String
deriving DecidableEq, Repr

/-- One entry of a budget's `categoryBudgets` array. -/
structure CatBudget where
  category : String
  budget : ℚ
  spent : ℚ
deriving DecidableEq, Repr

/-- A stored budget; `(userId, month)` is unique by index. -/
structure Budget where
  id : Nat
  userId : Nat
  month : DateTime
  totalBudget : ℚ
  categoryBudgets : List CatBudget
  currency : String
deriving DecidableEq, Repr

/-- Mongo `$group` with `$sum`: one row per distinct key of the matched
documents, holding the sum of `val` over the documents with that key.
(Mongo leaves the group output order unspecified; the embedding fixes
one order, and every use below sorts afterwards as the pipeline does.) -/
def aggregateSum {κ : Type} [DecidableEq κ]
    (key : Txn → κ) (val : Txn → ℚ) (ts : List Txn) : List (κ × ℚ) :=
  ((ts.map key).dedup).map
    (fun k => (k, ((ts.filter (fun t => key t = k)).map val).sum))

/-- Lookup of a group row by key, then `|| 0`: the JS `Map.get(k)` /
`find(g => g._id === k)?.total` access followed by a default of 0
(`undefined` becomes 0; a stored 0 stays 0). -/
def lookupD {κ : Type} [DecidableEq κ] (groups : List (κ × ℚ)) (k : κ) : ℚ :=
  ((groups.find? (fun g => g.1 = k)).map (fun g => g.2)).getD 0

/-- The `$match` of a (userId, inclusive date window) query. -/
def inWindow (uid : Nat) (s e : DateTime) (t : Txn) : Bool :=
  t.userId == uid && dtLe s t.date && dtLe t.date e

/-- The `$match` of a (userId, type: expense, inclusive date window)
query. -/
def expenseInWindow (uid : Nat) (s e : DateTime) (t : Txn) : Bool :=
  t.userId == uid && t.type == TxType.expense &&
  dtLe s t.date && dtLe t.date e

/-- The `$match` of `getCategorySpending`: userId, expense type, and
each date bound only when supplied. -/
def catSpendMatch (uid : Nat) (sd ed : Option DateTime) (t : Txn) : Bool :=
  t.userId == uid && t.type == TxType.expense &&
  (match sd with | some s => dtLe s t.date | none => true) &&
  (match ed with | some e => dtLe t.date e | none => true)

/-- The `$match` of `getSpendingTrends`: userId, expense type, and a
lower date bound only. -/
def trendMatch (uid : Nat) (ws : DateTime) (t : Txn) : Bool :=
  t.userId == uid && t.type == TxType.expense && dtLe ws t.date

/-- Direct (aggregation-free) total spend of one category over a window:
the sum of `|amount|` over the user's expense transactions in the window
whose category is `c`. Used to state what the grouped pipelines compute. -/
def spentFor (txns : List Txn) (uid : Nat) (s e : DateTime) (c : String) : ℚ :=
  (((txns.filter (expenseInWindow uid s e)).filter
      (fun t => t.category = c)).map (fun t => |t.amount|)).sum

/-- Direct (aggregation-free) total of `|amount|` over the user's
transactions of one type in a window. -/
def typeSumIn (txns : List Txn) (uid : Nat) (s e : DateTime) (ty : TxType) : ℚ :=
  (((txns.filter (inWindow uid s e)).filter
      (fun t => t.type = ty)).map (fun t => |t.amount|)).sum

/-- Ascending order on (year, month) group keys. -/
def ymKeyLe (a b : Int × Nat) : Prop :=
  a.1 < b.1 ∨ (a.1 = b.1 ∧ a.2 ≤ b.2)

instance : DecidableRel ymKeyLe := fun a b => by
  unfold ymKeyLe; infer_instance

/-- Ascending order on trend group rows, comparing the (year, sub) key. -/
def tKeyLe (a b : (Int × Int) × ℚ) : Prop :=
  a.1.1 < b.1.1 ∨ (a.1.1 = b.1.1 ∧ a.1.2 ≤ b.1.2)

instance : DecidableRel tKeyLe := fun a b => by
  unfold tKeyLe; infer_instance

/-- Descending order on category group rows, comparing the summed amount. -/
def spendGe (a b : String × ℚ) : Prop := b.2 ≤ a.2

instance : DecidableRel spendGe := fun a b => by
  unfold spendGe; infer_instance

/-- Descending order on budgets by month (`sort({ month: -1 })`). -/
def budMonthGe (a b : Budget) : Prop := dtLe b.month a.month = true

instance : DecidableRel budMonthGe := fun a b => by
  unfold budMonthGe; infer_instance

/-- Zero-padded two-digit rendering (`toString().padStart(2, '0')`). -/
def pad2 (n : Nat) : String :=
  if n < 10 then "0" ++ toString n else toString n

/-- The template literal building a monthly bucket label, "YYYY-MM". -/
def fmtYM (k : Int × Nat) : String := toString k.1 ++ "-" ++ pad2 k.2

/-- A row of `getMonthlySummary`'s result. -/
structure MonthlyData where
  month : String
  income : ℚ
  expenses : ℚ
  net : ℚ
deriving DecidableEq, Repr

/-- `AnalyticsService.getMonthlySummary`: window `[now - months, now]`
via `setMonth`, group by (year, month) summing the raw signed amount per
type (`$cond` on `$type`, no `$abs`), sort ascending by (year, month),
then report `Math.abs` of the expense sum and `net = income - |expenses|`. -/
def getMonthlySummary (txns : List Txn) (now : DateTime) (uid : Nat)
    (months : Nat) : List MonthlyData :=
  let endDate := now
  let startDate := setMonthSub now months
  let matched := txns.filter (inWindow uid startDate endDate)
  let keys := (matched.map (fun t => ((t.date.year, t.date.month) : Int × Nat))).dedup
  (List.insertionSort ymKeyLe keys).map (fun k =>
    let group := matched.filter (fun t => ((t.date.year, t.date.month) : Int × Nat) = k)
    let income := (group.map (fun t => if t.type = TxType.income then t.amount else 0)).sum
    let expenses := (group.map (fun t => if t.type = TxType.expense then t.amount else 0)).sum
    { month := fmtYM k, income := income, expenses := |expenses|,
      net := income - |expenses| })

/-- A row of `getCategorySpending`'s result; `color`/`icon` are absent
(`undefined`) when the category name matches no stored category. -/
structure CategorySpending where
  category : String
  amount : ℚ
  percentage : ℚ
  color : Option String
  icon : Option String
deriving DecidableEq, Repr

/-- Lookup in the JS `Map` built from the user's category list
(`new Map(categories.map(...))`): on duplicate names the last wins. -/
def catLookup (cats : List Cat) (n : String) : Option Cat :=
  cats.reverse.find? (fun c => c.name = n)

/-- `AnalyticsService.getCategorySpending`: expense transactions only,
optional inclusive date bounds, grouped by category summing `$abs` of the
amount, sorted descending by amount; `percentage = amount/total*100`
(0 when `total = 0`), `color`/`icon` looked up by category name. -/
def getCategorySpending (txns : List Txn) (cats : List Cat) (uid : Nat)
    (startDate endDate : Option DateTime) : List CategorySpending :=
  let matched := txns.filter (catSpendMatch uid startDate endDate)
  let spending := List.insertionSort spendGe
    (aggregateSum (fun t => t.category) (fun t => |t.amount|) matched)
  let total := (spending.map (fun g => g.2)).sum
  let userCats := cats.filter (fun c => c.userId == uid)
  spending.map (fun g =>
    { category := g.1, amount := g.2,
      percentage := if total > 0 then g.2 / total * 100 else 0,
      color := (catLookup userCats g.1).map (fun c => c.color),
      icon := (catLookup userCats g.1).map (fun c => c.icon) })

/-- The `period` parameter of `getSpendingTrends`. -/
inductive Period where
  | week
  | month
  | year
deriving DecidableEq, Repr

/-- The `$group` key for each trend period (year is paired with 0 so the
three cases share one key type; the sort below is by year then sub-key,
matching the pipeline's sort over the present `_id` fields). -/
def trendKey (p : Period) (t : Txn) : Int × Int :=
  match p with
  | Period.year => (t.date.year, 0)
  | Period.month => (t.date.year, (t.date.month : Int))
  | Period.week => (t.date.year, mongoWeek t.date)

/-- The period label: "YYYY", "YYYY-MM", or "YYYY-Www". -/
def trendLabel (p : Period) (k : Int × Int) : String :=
  match p with
  | Period.year => toString k.1
  | Period.month => toString k.1 ++ "-" ++ pad2 k.2.toNat
  | Period.week => toString k.1 ++ "-W" ++ pad2 k.2.toNat

/-- A point of `getSpendingTrends`'s result. -/
structure SpendingTrend where
  period : String
  amount : ℚ
  change : ℚ
deriving DecidableEq, Repr

/-- The final `map` of `getSpendingTrends`: `change = 0` on the first
point (`index = 0`), otherwise `(current - previous)/previous * 100`
against the immediately preceding row's amount. -/
def trendPoints : Option ℚ → List (String × ℚ) → List SpendingTrend
  | _, [] => []
  | none, g :: rest => ⟨g.1, g.2, 0⟩ :: trendPoints (some g.2) rest
  | some q, g :: rest => ⟨g.1, g.2, (g.2 - q) / q * 100⟩ :: trendPoints (some g.2) rest

/-- `AnalyticsService.getSpendingTrends`: expense transactions of the
user from `new Date(year, month - 11, 1)` on (no upper bound, and the
window does not depend on `period`), grouped per period key summing
`$abs` of the amount, sorted ascending, then labelled with the change
percentage against the previous point. -/
def getSpendingTrends (txns : List Txn) (now : DateTime) (uid : Nat)
    (p : Period) : List SpendingTrend :=
  let windowStart := firstOfMonthAgo now 11
  let matched := txns.filter (trendMatch uid windowStart)
  let sorted := List.insertionSort tKeyLe
    (aggregateSum (trendKey p) (fun t => |t.amount|) matched)
  trendPoints none (sorted.map (fun g => (trendLabel p g.1, g.2)))

/-- A per-category row of `getBudgetProgress`'s result (the object
literal has exactly these five fields — no overspend flag). -/
structure ProgressEntry where
  category : String
  budget : ℚ
  spent : ℚ
  remaining : ℚ
  percentage : ℚ
deriving DecidableEq, Repr

/-- The field names of the per-category object literal built by
`getBudgetProgress` (`analytics.service.ts`, the `updatedCategoryBudgets`
map), in source order. -/
def progressEntryFields : List String :=
  ["category", "budget", "spent", "remaining", "percentage"]

/-- The result object of `getBudgetProgress`. -/
structure BudgetProgress where
  month : DateTime
  totalBudget : ℚ
  totalSpent : ℚ
  totalRemaining : ℚ
  totalPercentage : ℚ
  categoryBudgets : List ProgressEntry
  currency : String
deriving DecidableEq, Repr

/-- The field names of the object literal returned by
`getBudgetProgress`, in source order. -/
def budgetProgressFields : List String :=
  ["month", "totalBudget", "totalSpent", "totalRemaining", "totalPercentage",
   "categoryBudgets", "currency"]

/-- `AnalyticsService.getBudgetProgress`: `targetMonth` is the given
month argument if present (`month || ...`; a `Date` is always truthy),
else the first day of the current month; the budget is looked up by
exact `(userId, month = targetMonth)` equality and `null` is returned
when none exists. Expense spending of `targetMonth`'s calendar month
(upper bound `new Date(y, m+1, 0)`, midnight starting the last day) is
grouped by category with `$abs`, and each stored `categoryBudgets` entry
is reported with `spent` (`spendingMap.get(c) || 0`), `remaining`,
and a guarded `percentage`; totals are derived from the listed entries. -/
def getBudgetProgress (txns : List Txn) (budgets : List Budget)
    (now : DateTime) (uid : Nat) (monthArg : Option DateTime) :
    Option BudgetProgress :=
  let targetMonth := monthArg.getD (firstOfMonthOf now)
  match budgets.find? (fun b => b.userId == uid && b.month == targetMonth) with
  | none => none
  | some budget =>
    let startOfMonth := firstOfMonthOf targetMonth
    let endOfMonth := endOfMonthOf targetMonth
    let matched := txns.filter (expenseInWindow uid startOfMonth endOfMonth)
    let actualSpending := aggregateSum (fun t => t.category) (fun t => |t.amount|) matched
    let entries := budget.categoryBudgets.map (fun cb =>
      let spent := lookupD actualSpending cb.category
      { category := cb.category, budget := cb.budget, spent := spent,
        remaining := cb.budget - spent,
        percentage := if cb.budget > 0 then spent / cb.budget * 100 else 0 })
    let totalSpent := (entries.map (fun e => e.spent)).sum
    some { month := budget.month, totalBudget := budget.totalBudget,
           totalSpent := totalSpent,
           totalRemaining := budget.totalBudget - totalSpent,
           totalPercentage := if budget.totalBudget > 0
             then totalSpent / budget.totalBudget * 100 else 0,
           categoryBudgets := entries, currency := budget.currency }

/-- A per-category row of `getCurrentBudget`'s result (this one does
carry the overspend flag). -/
structure CurrentEntry where
  category : String
  budget : ℚ
  spent : ℚ
  remaining : ℚ
  percentage : ℚ
  overspent : Bool
deriving DecidableEq, Repr

/-- The result of `getCurrentBudget` (`...budget.toObject()` spread plus
the recomputed progress fields). -/
structure CurrentBudgetResult where
  id : Nat
  userId : Nat
  month : DateTime
  totalBudget : ℚ
  currency : String
  categoryBudgets : List CurrentEntry
  totalSpent : ℚ
  totalRemaining : ℚ
  totalPercentage : ℚ
  overspent : Bool
deriving DecidableEq, Repr

/-- `BudgetService.getCurrentBudget`: `findOne({userId, month ≤ first of
current month}).sort({month: -1})` — the most recent budget at or before
the current month, `null` when none; then the same reconciliation as
`getBudgetProgress` but over the found budget's own month window, with
`overspent` flags. -/
def getCurrentBudget (txns : List Txn) (budgets : List Budget)
    (now : DateTime) (uid : Nat) : Option CurrentBudgetResult :=
  let currentMonth := firstOfMonthOf now
  let cands := budgets.filter (fun b => b.userId == uid && dtLe b.month currentMonth)
  match (List.insertionSort budMonthGe cands).head? with
  | none => none
  | some budget =>
    let startOfMonth := firstOfMonthOf budget.month
    let endOfMonth := endOfMonthOf budget.month
    let matched := txns.filter (expenseInWindow uid startOfMonth endOfMonth)
    let actualSpending := aggregateSum (fun t => t.category) (fun t => |t.amount|) matched
    let entries := budget.categoryBudgets.map (fun cb =>
      let spent := lookupD actualSpending cb.category
      { category := cb.category, budget := cb.budget, spent := spent,
        remaining := cb.budget - spent,
        percentage := if cb.budget > 0 then spent / cb.budget * 100 else 0,
        overspent := decide (cb.budget < spent) })
    let totalSpent := (entries.map (fun e => e.spent)).sum
    some { id := budget.id, userId := budget.userId, month := budget.month,
           totalBudget := budget.totalBudget, currency := budget.currency,
           categoryBudgets := entries, totalSpent := totalSpent,
           totalRemaining := budget.totalBudget - totalSpent,
           totalPercentage := if budget.totalBudget > 0
             then totalSpent / budget.totalBudget * 100 else 0,
           overspent := decide (budget.totalBudget < totalSpent) }

/-- One of the `monthly` / `yearly` parts of the financial overview. -/
structure OverviewPart where
  income : ℚ
  expenses : ℚ
  net : ℚ
  savingsRate : ℚ
deriving DecidableEq, Repr

/-- The result of `getFinancialOverview`; `topCategories` keeps the raw
group rows (category, amount). -/
structure FinancialOverview where
  monthly : OverviewPart
  yearly : OverviewPart
  topCategories : List (String × ℚ)
deriving DecidableEq, Repr

/-- `AnalyticsService.getFinancialOverview`: current-month totals by
type, year-to-date (Jan 1 through end of current month) totals by type,
and top-5 expense categories of the current month; all with `$abs` sums;
`savingsRate = (income - expenses)/income * 100` guarded by `income > 0`,
else `0`. -/
def getFinancialOverview (txns : List Txn) (now : DateTime) (uid : Nat) :
    FinancialOverview :=
  let startOfMonth := firstOfMonthOf now
  let endOfMonth := endOfMonthOf now
  let monthlySummary := aggregateSum (fun t => t.type) (fun t => |t.amount|)
    (txns.filter (inWindow uid startOfMonth endOfMonth))
  let yearlySummary := aggregateSum (fun t => t.type) (fun t => |t.amount|)
    (txns.filter (inWindow uid (janFirst now.year) endOfMonth))
  let topCategories := (List.insertionSort spendGe
    (aggregateSum (fun t => t.category) (fun t => |t.amount|)
      (txns.filter (expenseInWindow uid startOfMonth endOfMonth)))).take 5
  let monthlyIncome := lookupD monthlySummary TxType.income
  let monthlyExpenses := lookupD monthlySummary TxType.expense
  let yearlyIncome := lookupD yearlySummary TxType.income
  let yearlyExpenses := lookupD yearlySummary TxType.expense
  { monthly :=
      { income := monthlyIncome, expenses := monthlyExpenses,
        net := monthlyIncome - monthlyExpenses,
        savingsRate := if monthlyIncome > 0
          then (monthlyIncome - monthlyExpenses) / monthlyIncome * 100 else 0 },
    yearly :=
      { income := yearlyIncome, expenses := yearlyExpenses,
        net := yearlyIncome - yearlyExpenses,
        savingsRate := if yearlyIncome > 0
          then (yearlyIncome - yearlyExpenses) / yearlyIncome * 100 else 0 },
    topCategories := topCategories }

/-- The payload of `createBudget` (`Partial<IBudget>` as the service
reads it: `totalBudget` is compared with `!==` so it may be absent, and
`categoryBudgets` is accessed with `?.`; `month` and `currency` are
required by the schema and modelled as present). -/
structure BudgetInput where
  month : DateTime
  totalBudget : Option ℚ
  categoryBudgets : Option (List CatBudget)
  currency : String
deriving DecidableEq, Repr

/-- `BudgetService.createBudget`: reject a duplicate `(userId, month)`;
compute `categoryBudgets?.reduce((s, c) => s + c.budget, 0) || 0` and
reject unless it strictly equals the supplied `totalBudget` (an absent
`totalBudget` never equals a number); only then insert the budget. The
store is threaded explicitly: an error leaves it unchanged. -/
def createBudget (budgets : List Budget) (data : BudgetInput) (uid : Nat)
    (newId : Nat) : List Budget × Except String Budget :=
  match budgets.find? (fun b => b.userId == uid && b.month == data.month) with
  | some _ => (budgets, Except.error "Budget already exists for this month")
  | none =>
    let totalCategoryBudget :=
      (data.categoryBudgets.map (fun l => (l.map (fun cb => cb.budget)).sum)).getD 0
    if data.totalBudget ≠ some totalCategoryBudget then
      (budgets, Except.error "Total budget must equal the sum of category budgets")
    else
      let b : Budget :=
        { id := newId, userId := uid, month := data.month,
          totalBudget := totalCategoryBudget,
          categoryBudgets := data.categoryBudgets.getD [],
          currency := data.currency }
      (budgets ++ [b], Except.ok b)

/-- The payload of `updateBudget` (`Partial<IBudget>`): every field may
be absent, and only the provided fields are written. -/
structure BudgetUpdate where
  month : Option DateTime
  totalBudget : Option ℚ
  categoryBudgets : Option (List CatBudget)
  currency : Option String
deriving DecidableEq, Repr

/-- JS truthiness of `updateData.totalBudget`: absent and `0` are falsy. -/
def jsTruthyQ : Option ℚ → Bool
  | none => false
  | some q => q != 0

/-- `findByIdAndUpdate(id, updateData)`: overwrite exactly the provided
fields. -/
def applyUpdate (b : Budget) (u : BudgetUpdate) : Budget :=
  { b with month := u.month.getD b.month,
           totalBudget := u.totalBudget.getD b.totalBudget,
           categoryBudgets := u.categoryBudgets.getD b.categoryBudgets,
           currency := u.currency.getD b.currency }

/-- The validation-and-write tail of `updateBudget`: the consistency
check runs only when `updateData.categoryBudgets && updateData.totalBudget`
are both truthy (an empty array is truthy, a `totalBudget` of 0 is not). -/
def updateBudgetCommit (budgets : List Budget) (budgetId : Nat)
    (u : BudgetUpdate) (existing : Budget) :
    List Budget × Except String Budget :=
  if u.categoryBudgets.isSome && jsTruthyQ u.totalBudget then
    let totalCategoryBudget := ((u.categoryBudgets.getD []).map (fun cb => cb.budget)).sum
    if u.totalBudget ≠ some totalCategoryBudget then
      (budgets, Except.error "Total budget must equal the sum of category budgets")
    else
      (budgets.map (fun b => if b.id == budgetId then applyUpdate b u else b),
       Except.ok (applyUpdate existing u))
  else
    (budgets.map (fun b => if b.id == budgetId then applyUpdate b u else b),
     Except.ok (applyUpdate existing u))

/-- `BudgetService.updateBudget`: 404 when `(id, userId)` matches no
budget; when a month is supplied, reject if another budget of the user
already has that month (`updateData.month !== existingBudget.month`
compares object references, so a supplied month always triggers the
duplicate lookup; under the unique `(userId, month)` index this is
observationally the value-based check modelled here); then the guarded
sum validation and the field-wise update. An error leaves the store
unchanged. -/
def updateBudget (budgets : List Budget) (budgetId : Nat)
    (u : BudgetUpdate) (uid : Nat) : List Budget × Except String Budget :=
  match budgets.find? (fun b => b.id == budgetId && b.userId == uid) with
  | none => (budgets, Except.error "Budget not found")
  | some existing =>
    match u.month with
    | some m =>
      if ((budgets.find? (fun b =>
            b.userId == uid && b.month == m && !(b.id == budgetId))).isSome) then
        (budgets, Except.error "Budget already exists for this month")
      else
        updateBudgetCommit budgets budgetId u existing
    | none => updateBudgetCommit budgets budgetId u existing

/-- Second definition for the refinement comparison of C1, following the
spec's words ("all amounts are summed as abs(amount)"): the same monthly
pipeline, but every transaction contributes `|amount|` to its type's
bucket, and `net = income - expenses` on those magnitudes. -/
def specAbsMonthlySummary (txns : List Txn) (now : DateTime) (uid : Nat)
    (months : Nat) : List MonthlyData :=
  let endDate := now
  let startDate := setMonthSub now months
  let matched := txns.filter (inWindow uid startDate endDate)
  let keys := (matched.map (fun t => ((t.date.year, t.date.month) : Int × Nat))).dedup
  (List.insertionSort ymKeyLe keys).map (fun k =>
    let group := matched.filter (fun t => ((t.date.year, t.date.month) : Int × Nat) = k)
    let income := (group.map (fun t => if t.type = TxType.income then |t.amount| else 0)).sum
    let expenses := (group.map (fun t => if t.type = TxType.expense then |t.amount| else 0)).sum
    { month := fmtYM k, income := income, expenses := expenses,
      net := income - expenses })

instance : IsTrans (Int × Nat) ymKeyLe :=
  ⟨by intro a b c h1 h2; unfold ymKeyLe at *; omega⟩

instance : IsTotal (Int × Nat) ymKeyLe :=
  ⟨by intro a b; unfold ymKeyLe; omega⟩

instance : IsTrans ((Int × Int) × ℚ) tKeyLe :=
  ⟨by intro a b c h1 h2; unfold tKeyLe at *; omega⟩

instance : IsTotal ((Int × Int) × ℚ) tKeyLe :=
  ⟨by intro a b; unfold tKeyLe; omega⟩

instance : IsTrans (String × ℚ) spendGe :=
  ⟨fun _ _ _ h1 h2 => le_trans h2 h1⟩

instance : IsTotal (String × ℚ) spendGe :=
  ⟨fun a b => (le_total b.2 a.2).imp id id⟩

theorem dtLe_refl (a : DateTime) : dtLe a a = true := by
  simp [dtLe]

theorem dtLe_trans {a b c : DateTime} (h1 : dtLe a b = true)
    (h2 : dtLe b c = true) : dtLe a c = true := by
  simp only [dtLe] at *
  split_ifs at * <;> simp_all <;> omega

set_option linter.unnecessarySeqFocus false in
theorem dtLe_total (a b : DateTime) : dtLe a b = true ∨ dtLe b a = true := by
  simp only [dtLe]
  split_ifs <;> simp_all <;> omega

instance : IsTrans Budget budMonthGe :=
  ⟨fun _ _ _ h1 h2 => dtLe_trans h2 h1⟩

instance : IsTotal Budget budMonthGe :=
  ⟨fun a b => (dtLe_total b.month a.month).imp id id⟩

theorem find?_map_key {κ : Type} [DecidableEq κ] (f : κ → ℚ) (c : κ) :
    ∀ ks : List κ, c ∈ ks →
      (ks.map (fun k => (k, f k))).find? (fun g => g.1 = c) = some (c, f c) := by
  intro ks
  induction ks with
  | nil => intro h; cases h
  | cons k tl ih =>
    intro h
    by_cases hk : k = c
    · subst hk
      simp [List.find?]
    · have : c ∈ tl := by
        rcases List.mem_cons.1 h with h1 | h1
        · exact absurd h1.symm hk
        · exact h1
      simp only [List.map_cons, List.find?]
      have : (decide ((k, f k).1 = c)) = false := by simp [hk]
      rw [this]
      exact ih ‹c ∈ tl›

/-- The `Map.get(k) || 0` read of a `$group`/`$sum` pipeline result is
the plain filtered sum: 0 exactly when no matched document has key `k`. -/
theorem lookupD_aggregateSum {κ : Type} [DecidableEq κ]
    (key : Txn → κ) (val : Txn → ℚ) (ts : List Txn) (k : κ) :
    lookupD (aggregateSum key val ts) k
      = ((ts.filter (fun t => key t = k)).map val).sum := by
  unfold lookupD aggregateSum
  by_cases hk : k ∈ (ts.map key).dedup
  · rw [find?_map_key (fun k => ((ts.filter (fun t => key t = k)).map val).sum) k _ hk]
    rfl
  · have hfind : ((ts.map key).dedup.map
        (fun k => (k, ((ts.filter (fun t => key t = k)).map val).sum))).find?
          (fun g => g.1 = k) = none := by
      apply List.find?_eq_none.2
      intro g hg
      rcases List.mem_map.1 hg with ⟨k2, hk2, rfl⟩
      simp only [decide_eq_true_eq]
      intro hkk
      exact hk (hkk ▸ hk2)
    rw [hfind]
    have hnil : ts.filter (fun t => key t = k) = [] := by
      apply List.filter_eq_nil_iff.2
      intro t ht hkt
      exact hk (List.mem_dedup.2 (List.mem_map.2 ⟨t, ht, by simpa using hkt⟩))
    rw [hnil]
    rfl

/-- Every group row of a `$group`/`$sum` pipeline stems from at least one
matched document, and its sum is the plain filtered sum for its key. -/
theorem mem_aggregateSum {κ : Type} [DecidableEq κ]
    {key : Txn → κ} {val : Txn → ℚ} {ts : List Txn} {g : κ × ℚ}
    (hg : g ∈ aggregateSum key val ts) :
    (∃ t ∈ ts, key t = g.1) ∧
      g.2 = ((ts.filter (fun t => key t = g.1)).map val).sum := by
  unfold aggregateSum at hg
  rcases List.mem_map.1 hg with ⟨k, hk, rfl⟩
  refine ⟨?_, rfl⟩
  rcases List.mem_map.1 (List.mem_dedup.1 hk) with ⟨t, ht, rfl⟩
  exact ⟨t, ht, rfl⟩

/-- C6: in `getFinancialOverview`, both `monthly.savingsRate` and
`yearly.savingsRate` equal `(income - expenses)/income * 100` whenever
the corresponding income is positive, and equal exactly 0 whenever that
income is 0 (the division is guarded by the `income > 0` test, so the
zero-income case never divides); the incomes/expenses themselves are the
`|amount|` sums of the user's transactions of that type over the
current-month and year-to-date windows. -/
theorem C6_savingsRate_guarded (txns : List Txn) (now : DateTime) (uid : Nat)
    (r : FinancialOverview) (hr : r = getFinancialOverview txns now uid) :
    r.monthly.income
        = typeSumIn txns uid (firstOfMonthOf now) (endOfMonthOf now) TxType.income
    ∧ r.monthly.expenses
        = typeSumIn txns uid (firstOfMonthOf now) (endOfMonthOf now) TxType.expense
    ∧ (0 < r.monthly.income →
        r.monthly.savingsRate
          = (r.monthly.income - r.monthly.expenses) / r.monthly.income * 100)
    ∧ (r.monthly.income = 0 → r.monthly.savingsRate = 0)
    ∧ r.yearly.income
        = typeSumIn txns uid (janFirst now.year) (endOfMonthOf now) TxType.income
    ∧ r.yearly.expenses
        = typeSumIn txns uid (janFirst now.year) (endOfMonthOf now) TxType.expense
    ∧ (0 < r.yearly.income →
        r.yearly.savingsRate
          = (r.yearly.income - r.yearly.expenses) / r.yearly.income * 100)
    ∧ (r.yearly.income = 0 → r.yearly.savingsRate = 0) := by
  subst hr
  refine ⟨?_, ?_, ?_, ?_, ?_, ?_, ?_, ?_⟩ <;>
    simp only [getFinancialOverview, typeSumIn, lookupD_aggregateSum]
  · intro h
    rw [if_pos h]
  · intro h
    rw [h]
    simp
  · intro h
    rw [if_pos h]
  · intro h
    rw [h]
    simp

/-- C6 witness: with no transactions at all, both savings rates are
exactly 0 (zero income is not an error and not NaN). -/
theorem C6_savingsRate_guarded_witness :
    (getFinancialOverview [] ⟨2025, 6, 15, 0⟩ 1).monthly.savingsRate = 0 ∧
    (getFinancialOverview [] ⟨2025, 6, 15, 0⟩ 1).yearly.savingsRate = 0 :=
  ⟨(C6_savingsRate_guarded [] ⟨2025, 6, 15, 0⟩ 1 _ rfl).2.2.2.1
      (by with_unfolding_all decide),
   (C6_savingsRate_guarded [] ⟨2025, 6, 15, 0⟩ 1 _ rfl).2.2.2.2.2.2.2
      (by with_unfolding_all decide)⟩

/-- C8 amended: `getBudgetProgress` uses a present month argument as
given for the budget lookup (it is not resolved to the first of its
month; only the absent case defaults to the first day of the current
month), and it returns `none` — it is total, never an exception —
exactly when no stored budget has that `(userId, month)` key. -/
theorem C8_absence_is_null (txns : List Txn) (budgets : List Budget)
    (now : DateTime) (uid : Nat) (monthArg : Option DateTime) :
    getBudgetProgress txns budgets now uid monthArg = none ↔
      ∀ b ∈ budgets,
        ¬(b.userId = uid ∧ b.month = monthArg.getD (firstOfMonthOf now)) := by
  simp only [getBudgetProgress]
  cases hfind : budgets.find?
      (fun b => b.userId == uid && b.month == monthArg.getD (firstOfMonthOf now)) with
  | none =>
    constructor
    · intro _ b hb hp
      have hnone := List.find?_eq_none.1 hfind b hb
      simp [hp.1, hp.2] at hnone
    · intro _
      rfl
  | some b =>
    constructor
    · intro h
      simp at h
    · intro hall
      exfalso
      have hp := List.find?_some hfind
      have hm := List.mem_of_find?_eq_some hfind
      simp only [Bool.and_eq_true, beq_iff_eq] at hp
      exact hall b hm ⟨hp.1, hp.2⟩

/-- C8 witness: a user with no budgets gets `none` from
`getBudgetProgress`, by the theorem applied to the empty store. -/
theorem C8_absence_is_null_witness :
    getBudgetProgress [] [] ⟨2025, 6, 15, 0⟩ 1 none = none :=
  (C8_absence_is_null [] [] ⟨2025, 6, 15, 0⟩ 1 none).2 (by intro b hb; cases hb)

set_option maxRecDepth 100000 in
/-- C8 counterexample: the claim says every month argument is resolved
to the first day of its calendar month before the budget lookup. It is
not: with a budget stored for March 1st 2025, passing March 15th yields
`none`, while passing the first of that month finds the budget. -/
theorem C8_counterexample :
    getBudgetProgress [] [⟨0, 7, ⟨2025, 3, 1, 0⟩, 100, [], "USD"⟩]
        ⟨2025, 6, 15, 0⟩ 7 (some ⟨2025, 3, 15, 0⟩) = none
    ∧ firstOfMonthOf ⟨2025, 3, 15, 0⟩ = ⟨2025, 3, 1, 0⟩
    ∧ getBudgetProgress [] [⟨0, 7, ⟨2025, 3, 1, 0⟩, 100, [], "USD"⟩]
        ⟨2025, 6, 15, 0⟩ 7 (some (firstOfMonthOf ⟨2025, 3, 15, 0⟩)) ≠ none := by
  with_unfolding_all decide

set_option maxRecDepth 100000 in
/-- C2 counterexample: on the spec's own example (budget 300 with a
single 200 allocation for "Food", one 250 expense on "Food" in that
month) `getBudgetProgress` produces the numbers the claim lists, but the
per-category object literal carries exactly the fields category, budget,
spent, remaining, percentage, and the result literal carries no overall
flag either: no `overspent` field exists anywhere in the result, so the
claimed `overspent = (spent > budget)` entries are absent. -/
theorem C2_counterexample :
    getBudgetProgress [⟨1, ⟨2025, 6, 20, 0⟩, "Food", 250, TxType.expense⟩]
        [⟨0, 1, ⟨2025, 6, 1, 0⟩, 300, [⟨"Food", 200, 0⟩], "USD"⟩]
        ⟨2025, 6, 15, 0⟩ 1 none
      = some { month := ⟨2025, 6, 1, 0⟩, totalBudget := 300, totalSpent := 250,
               totalRemaining := 50, totalPercentage := 250/3,
               categoryBudgets := [{ category := "Food", budget := 200, spent := 250,
                                     remaining := -50, percentage := 125 }],
               currency := "USD" }
    ∧ "overspent" ∉ progressEntryFields
    ∧ "overspent" ∉ budgetProgressFields := by
  refine ⟨?_, by decide, by decide⟩
  with_unfolding_all decide

theorem filter_append_single_false {α : Type} {p : α → Bool} {l : List α}
    {x : α} (h : p x = false) : (l ++ [x]).filter p = l.filter p := by
  simp [List.filter_append, h]

theorem dtLe_lastDay_false {y : Int} {m : Nat} {msec : Nat} (h : 0 < msec) :
    dtLe ⟨y, m, daysInMonth y m, msec⟩ ⟨y, m, daysInMonth y m, 0⟩ = false := by
  simp [dtLe]
  omega

/-- C10: every month window built by `getBudgetProgress`,
`getFinancialOverview` and `getCurrentBudget` ends at
`new Date(year, month+1, 0)` — midnight starting the last calendar day —
so a transaction dated on the last day of the month with a time of day
strictly after midnight is invisible to all of them: appending such a
transaction changes none of the three results. -/
theorem C10_last_day_after_midnight_excluded (txns : List Txn)
    (budgets : List Budget) (now : DateTime) (uid : Nat) (y : Int)
    (m : Nat) (msec : Nat) (c : String) (q : ℚ) (b : Budget)
    (hms : 0 < msec) :
    getBudgetProgress
        (txns ++ [⟨uid, ⟨y, m, daysInMonth y m, msec⟩, c, q, TxType.expense⟩])
        budgets now uid (some ⟨y, m, 1, 0⟩)
      = getBudgetProgress txns budgets now uid (some ⟨y, m, 1, 0⟩)
    ∧ (now.year = y → now.month = m →
        getFinancialOverview
            (txns ++ [⟨uid, ⟨y, m, daysInMonth y m, msec⟩, c, q, TxType.expense⟩])
            now uid
          = getFinancialOverview txns now uid)
    ∧ (b.userId = uid → b.month = ⟨y, m, 1, 0⟩ →
        dtLe b.month (firstOfMonthOf now) = true →
        getCurrentBudget
            (txns ++ [⟨uid, ⟨y, m, daysInMonth y m, msec⟩, c, q, TxType.expense⟩])
            [b] now uid
          = getCurrentBudget txns [b] now uid) := by
  refine ⟨?_, ?_, ?_⟩
  · have hpt : expenseInWindow uid (firstOfMonthOf ⟨y, m, 1, 0⟩)
        (endOfMonthOf ⟨y, m, 1, 0⟩)
        ⟨uid, ⟨y, m, daysInMonth y m, msec⟩, c, q, TxType.expense⟩ = false := by
      simp [expenseInWindow, endOfMonthOf, firstOfMonthOf,
        dtLe_lastDay_false hms]
    simp only [getBudgetProgress, Option.getD_some,
      filter_append_single_false hpt]
  · intro hy hm
    subst hy
    subst hm
    have h1 : inWindow uid (firstOfMonthOf now) (endOfMonthOf now)
        ⟨uid, ⟨now.year, now.month, daysInMonth now.year now.month, msec⟩,
          c, q, TxType.expense⟩ = false := by
      simp [inWindow, endOfMonthOf, firstOfMonthOf, dtLe_lastDay_false hms]
    have h2 : inWindow uid (janFirst now.year) (endOfMonthOf now)
        ⟨uid, ⟨now.year, now.month, daysInMonth now.year now.month, msec⟩,
          c, q, TxType.expense⟩ = false := by
      simp [inWindow, endOfMonthOf, janFirst, dtLe_lastDay_false hms]
    have h3 : expenseInWindow uid (firstOfMonthOf now) (endOfMonthOf now)
        ⟨uid, ⟨now.year, now.month, daysInMonth now.year now.month, msec⟩,
          c, q, TxType.expense⟩ = false := by
      simp [expenseInWindow, endOfMonthOf, firstOfMonthOf,
        dtLe_lastDay_false hms]
    simp only [getFinancialOverview, filter_append_single_false h1,
      filter_append_single_false h2, filter_append_single_false h3]
  · intro hbu hbm hble
    have hpt : expenseInWindow uid (firstOfMonthOf b.month)
        (endOfMonthOf b.month)
        ⟨uid, ⟨y, m, daysInMonth y m, msec⟩, c, q, TxType.expense⟩ = false := by
      rw [hbm]
      simp [expenseInWindow, endOfMonthOf, firstOfMonthOf,
        dtLe_lastDay_false hms]
    have hsort : (List.insertionSort budMonthGe
        (List.filter (fun b2 => b2.userId == uid &&
          dtLe b2.month (firstOfMonthOf now)) [b])).head? = some b := by
      simp [hbu, hble, List.insertionSort]
    simp only [getCurrentBudget, hsort, filter_append_single_false hpt]

/-- C10 witness: concrete instance — June 30th 2025 at one millisecond
past midnight is excluded from June 2025's financial overview. -/
theorem C10_last_day_after_midnight_excluded_witness :
    getFinancialOverview
        ([] ++ [⟨1, ⟨2025, 6, daysInMonth 2025 6, 1⟩, "Food", 5, TxType.expense⟩])
        ⟨2025, 6, 15, 0⟩ 1
      = getFinancialOverview [] ⟨2025, 6, 15, 0⟩ 1 :=
  (C10_last_day_after_midnight_excluded [] [] ⟨2025, 6, 15, 0⟩ 1 2025 6 1
      "Food" 5 ⟨0, 1, ⟨2025, 6, 1, 0⟩, 0, [], "USD"⟩ (by decide)).2.1 rfl rfl

/-- C2 amended: for every budget found, `getBudgetProgress` returns
exactly one entry per stored `categoryBudgets` entry (a category with
spend but no allocation never appears), with
`spent` = the aggregated expense spend of that category over the target
month window (0 when none), `remaining = budget - spent`,
`percentage = spent/budget*100` (0 when `budget = 0`), and totals
`totalSpent = Σ spent`, `totalRemaining = totalBudget - totalSpent`,
`totalPercentage = totalSpent/totalBudget*100` (0 when
`totalBudget = 0`) — but no `overspent` flags (see the counterexample). -/
theorem C2_progress_reconciliation (txns : List Txn) (budgets : List Budget)
    (now : DateTime) (uid : Nat) (monthArg : Option DateTime) (b : Budget)
    (hfind : budgets.find? (fun x => x.userId == uid &&
        x.month == monthArg.getD (firstOfMonthOf now)) = some b) :
    ∃ r, getBudgetProgress txns budgets now uid monthArg = some r
      ∧ r.categoryBudgets = b.categoryBudgets.map (fun cb =>
          { category := cb.category, budget := cb.budget,
            spent := spentFor txns uid
              (firstOfMonthOf (monthArg.getD (firstOfMonthOf now)))
              (endOfMonthOf (monthArg.getD (firstOfMonthOf now))) cb.category,
            remaining := cb.budget - spentFor txns uid
              (firstOfMonthOf (monthArg.getD (firstOfMonthOf now)))
              (endOfMonthOf (monthArg.getD (firstOfMonthOf now))) cb.category,
            percentage := if cb.budget > 0 then
              spentFor txns uid
                (firstOfMonthOf (monthArg.getD (firstOfMonthOf now)))
                (endOfMonthOf (monthArg.getD (firstOfMonthOf now))) cb.category
                / cb.budget * 100
              else 0 })
      ∧ r.totalSpent = (r.categoryBudgets.map (fun en => en.spent)).sum
      ∧ r.totalRemaining = b.totalBudget - r.totalSpent
      ∧ r.totalPercentage
          = (if b.totalBudget > 0 then r.totalSpent / b.totalBudget * 100 else 0)
      ∧ r.month = b.month ∧ r.totalBudget = b.totalBudget
      ∧ r.currency = b.currency := by
  simp only [getBudgetProgress, hfind]
  refine ⟨_, rfl, ?_, rfl, rfl, rfl, rfl, rfl, rfl⟩
  simp only [lookupD_aggregateSum, spentFor]

/-- C2 witness: the spec's example — budget 300 with a 200 "Food"
allocation and one 250 "Food" expense in the month — instantiating the
reconciliation theorem. -/
theorem C2_progress_reconciliation_witness :
    ∃ r, getBudgetProgress [⟨1, ⟨2025, 6, 20, 0⟩, "Food", 250, TxType.expense⟩]
        [⟨0, 1, ⟨2025, 6, 1, 0⟩, 300, [⟨"Food", 200, 0⟩], "USD"⟩]
        ⟨2025, 6, 15, 0⟩ 1 none = some r
      ∧ r.categoryBudgets
        = ([⟨"Food", 200, 0⟩] : List CatBudget).map (fun cb =>
          { category := cb.category, budget := cb.budget,
            spent := spentFor [⟨1, ⟨2025, 6, 20, 0⟩, "Food", 250, TxType.expense⟩] 1
              (firstOfMonthOf ((none : Option DateTime).getD
                (firstOfMonthOf ⟨2025, 6, 15, 0⟩)))
              (endOfMonthOf ((none : Option DateTime).getD
                (firstOfMonthOf ⟨2025, 6, 15, 0⟩))) cb.category,
            remaining := cb.budget - spentFor
              [⟨1, ⟨2025, 6, 20, 0⟩, "Food", 250, TxType.expense⟩] 1
              (firstOfMonthOf ((none : Option DateTime).getD
                (firstOfMonthOf ⟨2025, 6, 15, 0⟩)))
              (endOfMonthOf ((none : Option DateTime).getD
                (firstOfMonthOf ⟨2025, 6, 15, 0⟩))) cb.category,
            percentage := if cb.budget > 0 then
              spentFor [⟨1, ⟨2025, 6, 20, 0⟩, "Food", 250, TxType.expense⟩] 1
                (firstOfMonthOf ((none : Option DateTime).getD
                  (firstOfMonthOf ⟨2025, 6, 15, 0⟩)))
                (endOfMonthOf ((none : Option DateTime).getD
                  (firstOfMonthOf ⟨2025, 6, 15, 0⟩))) cb.category
                / cb.budget * 100
              else 0 })
      ∧ r.totalSpent = (r.categoryBudgets.map (fun en => en.spent)).sum
      ∧ r.totalRemaining = 300 - r.totalSpent
      ∧ r.totalPercentage = (if (300 : ℚ) > 0 then r.totalSpent / 300 * 100 else 0)
      ∧ r.month = ⟨2025, 6, 1, 0⟩ ∧ r.totalBudget = 300
      ∧ r.currency = "USD" :=
  C2_progress_reconciliation [⟨1, ⟨2025, 6, 20, 0⟩, "Food", 250, TxType.expense⟩]
    [⟨0, 1, ⟨2025, 6, 1, 0⟩, 300, [⟨"Food", 200, 0⟩], "USD"⟩]
    ⟨2025, 6, 15, 0⟩ 1 none ⟨0, 1, ⟨2025, 6, 1, 0⟩, 300, [⟨"Food", 200, 0⟩], "USD"⟩
    (by decide)

/-- C5: `getCurrentBudget` returns `none` exactly when the user has no
budget dated at or before the first day of the current month; otherwise
it selects a stored budget at or before the current month that is most
recent among all such budgets (the fallback: an exact current-month
budget is not required), and reconciles it — including overspend flags —
against expense spending in that found budget's own month window. -/
theorem C5_current_budget_fallback (txns : List Txn) (budgets : List Budget)
    (now : DateTime) (uid : Nat) :
    (getCurrentBudget txns budgets now uid = none ↔
      ∀ b ∈ budgets, ¬(b.userId = uid ∧ dtLe b.month (firstOfMonthOf now) = true))
    ∧ (∀ r, getCurrentBudget txns budgets now uid = some r →
        ∃ b ∈ budgets, b.userId = uid ∧ dtLe b.month (firstOfMonthOf now) = true
          ∧ (∀ b2 ∈ budgets, b2.userId = uid →
              dtLe b2.month (firstOfMonthOf now) = true →
              dtLe b2.month b.month = true)
          ∧ r.id = b.id ∧ r.userId = b.userId ∧ r.month = b.month
          ∧ r.totalBudget = b.totalBudget ∧ r.currency = b.currency
          ∧ r.categoryBudgets = b.categoryBudgets.map (fun cb =>
              { category := cb.category, budget := cb.budget,
                spent := spentFor txns uid (firstOfMonthOf b.month)
                  (endOfMonthOf b.month) cb.category,
                remaining := cb.budget - spentFor txns uid (firstOfMonthOf b.month)
                  (endOfMonthOf b.month) cb.category,
                percentage := if cb.budget > 0 then
                  spentFor txns uid (firstOfMonthOf b.month)
                    (endOfMonthOf b.month) cb.category / cb.budget * 100
                  else 0,
                overspent := decide (cb.budget < spentFor txns uid
                  (firstOfMonthOf b.month) (endOfMonthOf b.month) cb.category) })
          ∧ r.totalSpent = (r.categoryBudgets.map (fun en => en.spent)).sum
          ∧ r.totalRemaining = b.totalBudget - r.totalSpent
          ∧ r.totalPercentage
              = (if b.totalBudget > 0 then r.totalSpent / b.totalBudget * 100 else 0)
          ∧ r.overspent = decide (b.totalBudget < r.totalSpent)) := by
  constructor
  · cases hs : (List.insertionSort budMonthGe (budgets.filter
        (fun b => b.userId == uid && dtLe b.month (firstOfMonthOf now)))).head? with
    | none =>
      have hnil : List.insertionSort budMonthGe (budgets.filter
          (fun b => b.userId == uid && dtLe b.month (firstOfMonthOf now))) = [] :=
        List.head?_eq_none_iff.1 hs
      have hcand : budgets.filter
          (fun b => b.userId == uid && dtLe b.month (firstOfMonthOf now)) = [] := by
        have hperm := List.perm_insertionSort budMonthGe (budgets.filter
          (fun b => b.userId == uid && dtLe b.month (firstOfMonthOf now)))
        rw [hnil] at hperm
        exact (hperm.symm).eq_nil
      constructor
      · intro _ b hb hp
        have hbmem : b ∈ budgets.filter
            (fun b => b.userId == uid && dtLe b.month (firstOfMonthOf now)) :=
          List.mem_filter.2 ⟨hb, by simp [hp.1, hp.2]⟩
        rw [hcand] at hbmem
        cases hbmem
      · intro _
        simp only [getCurrentBudget, hs]
    | some b0 =>
      constructor
      · intro h
        simp only [getCurrentBudget, hs] at h
        exact absurd h (Option.some_ne_none _)
      · intro hall
        exfalso
        have hb0 : b0 ∈ List.insertionSort budMonthGe (budgets.filter
            (fun b => b.userId == uid && dtLe b.month (firstOfMonthOf now))) :=
          List.mem_of_mem_head? (by rw [hs]; exact rfl)
        have hb0c : b0 ∈ budgets.filter
            (fun b => b.userId == uid && dtLe b.month (firstOfMonthOf now)) :=
          (List.mem_insertionSort _).1 hb0
        have hmem := List.mem_filter.1 hb0c
        have hpred := hmem.2
        simp only [Bool.and_eq_true, beq_iff_eq] at hpred
        exact hall b0 hmem.1 ⟨hpred.1, hpred.2⟩
  · intro r hr
    cases hs : (List.insertionSort budMonthGe (budgets.filter
        (fun b => b.userId == uid && dtLe b.month (firstOfMonthOf now)))).head? with
    | none =>
      simp only [getCurrentBudget, hs] at hr
      exact absurd hr.symm (Option.some_ne_none _)
    | some b0 =>
      simp only [getCurrentBudget, hs, Option.some.injEq] at hr
      have hb0c : b0 ∈ budgets.filter
          (fun b => b.userId == uid && dtLe b.month (firstOfMonthOf now)) :=
        (List.mem_insertionSort _).1
          (List.mem_of_mem_head? (by rw [hs]; exact rfl))
      have hmem := List.mem_filter.1 hb0c
      have hpred := hmem.2
      simp only [Bool.and_eq_true, beq_iff_eq] at hpred
      refine ⟨b0, hmem.1, hpred.1, hpred.2, ?_, ?_⟩
      · intro b2 hb2 hu2 hle2
        have hb2c : b2 ∈ budgets.filter
            (fun b => b.userId == uid && dtLe b.month (firstOfMonthOf now)) :=
          List.mem_filter.2 ⟨hb2, by simp [hu2, hle2]⟩
        have hb2s : b2 ∈ List.insertionSort budMonthGe (budgets.filter
            (fun b => b.userId == uid && dtLe b.month (firstOfMonthOf now))) :=
          (List.mem_insertionSort _).2 hb2c
        have hsorted := List.sorted_insertionSort budMonthGe (budgets.filter
          (fun b => b.userId == uid && dtLe b.month (firstOfMonthOf now)))
        cases hsl : List.insertionSort budMonthGe (budgets.filter
            (fun b => b.userId == uid && dtLe b.month (firstOfMonthOf now))) with
        | nil =>
          rw [hsl] at hs
          cases hs
        | cons hd tl =>
          rw [hsl] at hs
          have hhd : hd = b0 := by simpa using hs
          rw [hsl] at hsorted hb2s
          subst hhd
          rcases List.mem_cons.1 hb2s with h2 | h2
          · rw [h2]
            exact dtLe_refl _
          · exact (List.sorted_cons.1 hsorted).1 b2 h2
      · subst hr
        refine ⟨rfl, rfl, rfl, rfl, rfl, ?_, rfl, rfl, rfl, rfl⟩
        simp only [lookupD_aggregateSum, spentFor]

/-- C5 witness: a budget dated two months before the current month (and
no exact current-month budget) is still found and reconciled, not
reported as absent: the theorem's null characterisation rules out `none`
because a qualifying budget exists. -/
theorem C5_current_budget_fallback_witness :
    getCurrentBudget [] [⟨0, 1, ⟨2025, 4, 1, 0⟩, 50, [], "USD"⟩]
      ⟨2025, 6, 15, 0⟩ 1 ≠ none := by
  intro h
  exact (C5_current_budget_fallback [] [⟨0, 1, ⟨2025, 4, 1, 0⟩, 50, [], "USD"⟩]
      ⟨2025, 6, 15, 0⟩ 1).1.1 h ⟨0, 1, ⟨2025, 4, 1, 0⟩, 50, [], "USD"⟩
      (List.mem_singleton.2 rfl) ⟨rfl, by decide⟩

theorem trendPoints_head_change (rows : List (String × ℚ)) :
    ∀ x, (trendPoints none rows).head? = some x → x.change = 0 := by
  cases rows with
  | nil =>
    intro x hx
    cases hx
  | cons g rest =>
    intro x hx
    simp only [trendPoints, List.head?_cons, Option.some.injEq] at hx
    rw [← hx]

theorem trendPoints_chain (rows : List (String × ℚ)) : ∀ o,
    List.Chain' (fun a b => b.change = (b.amount - a.amount) / a.amount * 100)
      (trendPoints o rows) := by
  induction rows with
  | nil =>
    intro o
    cases o <;> exact List.chain'_nil
  | cons g rest ih =>
    intro o
    have hnext : ∀ x, (trendPoints (some g.2) rest).head? = some x →
        x.change = (x.amount - g.2) / g.2 * 100 := by
      cases rest with
      | nil =>
        intro x hx
        cases hx
      | cons g2 r2 =>
        intro x hx
        simp only [trendPoints, List.head?_cons, Option.some.injEq] at hx
        rw [← hx]
    cases o with
    | none =>
      simp only [trendPoints]
      rw [List.chain'_cons']
      exact ⟨fun b hb => hnext b hb, ih _⟩
    | some q =>
      simp only [trendPoints]
      rw [List.chain'_cons']
      exact ⟨fun b hb => hnext b hb, ih _⟩

theorem filter_sub_pred {α : Type} {p q : α → Bool} (l : List α)
    (h : ∀ a, p a = true → q a = true) :
    (l.filter q).filter p = l.filter p := by
  induction l with
  | nil => rfl
  | cons a tl ih =>
    cases hp : p a with
    | false =>
      cases hq : q a <;> simp [List.filter_cons, hp, hq, ih]
    | true =>
      have hq := h a hp
      simp [List.filter_cons, hp, hq, ih]

/-- C4: `getSpendingTrends` draws, for every requested period, only from
the user's expense transactions dated in the fixed trailing window that
starts at the first of the month eleven months before the current one
(pre-restricting the store to that window and type changes nothing); in
the returned series the first point has `change = 0` and every
subsequent point has `change = (current - previous)/previous * 100`
computed against the immediately preceding point. -/
theorem C4_trends_window_and_change (txns : List Txn) (now : DateTime)
    (uid : Nat) (p : Period) :
    getSpendingTrends (txns.filter (fun t =>
        t.type == TxType.expense && dtLe (firstOfMonthAgo now 11) t.date))
        now uid p
      = getSpendingTrends txns now uid p
    ∧ (∀ x, (getSpendingTrends txns now uid p).head? = some x → x.change = 0)
    ∧ List.Chain' (fun a b => b.change = (b.amount - a.amount) / a.amount * 100)
        (getSpendingTrends txns now uid p) := by
  refine ⟨?_, ?_, ?_⟩
  · have hsub : (txns.filter (fun t =>
        t.type == TxType.expense && dtLe (firstOfMonthAgo now 11) t.date)).filter
          (trendMatch uid (firstOfMonthAgo now 11))
        = txns.filter (trendMatch uid (firstOfMonthAgo now 11)) := by
      apply filter_sub_pred
      intro t ht
      simp only [trendMatch, Bool.and_eq_true] at ht ⊢
      exact ⟨ht.1.2, ht.2⟩
    simp only [getSpendingTrends, hsub]
  · intro x hx
    simp only [getSpendingTrends] at hx
    exact trendPoints_head_change _ x hx
  · simp only [getSpendingTrends]
    exact trendPoints_chain _ none

/-- C4 witness: two consecutive months with expense totals 100 then 150
give change 0 on the first point and 50 on the second; the first-point
fact is the theorem applied at this input. -/
theorem C4_trends_window_and_change_witness :
    getSpendingTrends [⟨1, ⟨2025, 6, 10, 0⟩, "Food", 150, TxType.expense⟩,
        ⟨1, ⟨2025, 5, 10, 0⟩, "Food", 100, TxType.expense⟩]
        ⟨2025, 6, 15, 0⟩ 1 Period.month
      = [⟨"2025-05", 100, 0⟩, ⟨"2025-06", 150, 50⟩]
    ∧ (⟨"2025-05", (100 : ℚ), 0⟩ : SpendingTrend).change = 0 :=
  ⟨by with_unfolding_all decide,
   (C4_trends_window_and_change [⟨1, ⟨2025, 6, 10, 0⟩, "Food", 150, TxType.expense⟩,
        ⟨1, ⟨2025, 5, 10, 0⟩, "Food", 100, TxType.expense⟩]
        ⟨2025, 6, 15, 0⟩ 1 Period.month).2.1 ⟨"2025-05", (100 : ℚ), 0⟩
     (by with_unfolding_all decide)⟩

/-- C3: `getCategorySpending` returns rows drawn from the user's expense
transactions only, sorted descending by amount; each row's amount is the
`|amount|` sum of its category's matching transactions and its
percentage is `amount / totalAcrossCategories * 100` (0 when the total
is 0); when the total is positive the percentages sum to exactly 100;
when every stored amount is nonzero (the schema demands `amount ≥ 0.01`)
a zero total forces the empty list; and a row whose category name
matches no stored category of the user gets `color = none` and
`icon = none` rather than an error. -/
theorem C3_category_spending (txns : List Txn) (cats : List Cat) (uid : Nat)
    (sd ed : Option DateTime) (rows : List CategorySpending)
    (hrows : rows = getCategorySpending txns cats uid sd ed) :
    List.Sorted (fun x y => y.amount ≤ x.amount) rows
    ∧ (∀ r ∈ rows,
        (∃ t ∈ txns, catSpendMatch uid sd ed t = true ∧ t.category = r.category)
        ∧ r.amount = (((txns.filter (catSpendMatch uid sd ed)).filter
            (fun t => t.category = r.category)).map (fun t => |t.amount|)).sum
        ∧ r.percentage = (if 0 < (rows.map (fun x => x.amount)).sum
            then r.amount / (rows.map (fun x => x.amount)).sum * 100 else 0))
    ∧ (0 < (rows.map (fun x => x.amount)).sum →
        (rows.map (fun x => x.percentage)).sum = 100)
    ∧ ((∀ t ∈ txns, t.amount ≠ 0) →
        (rows.map (fun x => x.amount)).sum = 0 → rows = [])
    ∧ (∀ r ∈ rows, (∀ c2 ∈ cats, c2.userId = uid → c2.name ≠ r.category) →
        r.color = none ∧ r.icon = none) := by
  obtain ⟨matched, hmatched⟩ :
      ∃ l, l = txns.filter (catSpendMatch uid sd ed) := ⟨_, rfl⟩
  obtain ⟨sorted, hsorted⟩ : ∃ s, s = List.insertionSort spendGe
      (aggregateSum (fun t => t.category) (fun t => |t.amount|) matched) := ⟨_, rfl⟩
  have hrows2 : rows = sorted.map (fun g =>
      { category := g.1, amount := g.2,
        percentage := if (sorted.map (fun g2 => g2.2)).sum > 0
          then g.2 / (sorted.map (fun g2 => g2.2)).sum * 100 else 0,
        color := (catLookup (cats.filter (fun c => c.userId == uid)) g.1).map
          (fun c => c.color),
        icon := (catLookup (cats.filter (fun c => c.userId == uid)) g.1).map
          (fun c => c.icon) }) := by
    rw [hrows, hsorted, hmatched]
    rfl
  have hamount_eq : rows.map (fun x => x.amount) = sorted.map (fun g => g.2) := by
    rw [hrows2, List.map_map]
    rfl
  have hSorted : List.Sorted spendGe sorted := by
    rw [hsorted]
    exact List.sorted_insertionSort spendGe _
  have hmemagg : ∀ {g}, g ∈ sorted →
      g ∈ aggregateSum (fun t => t.category) (fun t => |t.amount|) matched := by
    intro g hg
    rw [hsorted] at hg
    exact (List.mem_insertionSort _).1 hg
  have hposall : (∀ t ∈ txns, t.amount ≠ 0) → ∀ g2 ∈ sorted, 0 < g2.2 := by
    intro hnz g2 hg2
    obtain ⟨⟨t, htm, htk⟩, hsum⟩ := mem_aggregateSum (hmemagg hg2)
    have htf : t ∈ matched.filter (fun t2 => t2.category = g2.1) :=
      List.mem_filter.2 ⟨htm, by simp [htk]⟩
    have habs : |t.amount| ∈ (matched.filter
        (fun t2 => t2.category = g2.1)).map (fun t2 => |t2.amount|) :=
      List.mem_map_of_mem _ htf
    have hle := List.single_le_sum
      (by
        intro x hx
        obtain ⟨t2, _, rfl⟩ := List.mem_map.1 hx
        exact abs_nonneg _) _ habs
    have ht_txns : t ∈ txns := by
      rw [hmatched] at htm
      exact (List.mem_filter.1 htm).1
    have hpos : 0 < |t.amount| := abs_pos.2 (hnz t ht_txns)
    rw [hsum]
    exact lt_of_lt_of_le hpos hle
  refine ⟨?_, ?_, ?_, ?_, ?_⟩
  · rw [hrows2]
    exact List.Pairwise.map _ (fun a b hab => hab) hSorted
  · intro r hr
    rw [hrows2] at hr
    obtain ⟨g, hg, rfl⟩ := List.mem_map.1 hr
    obtain ⟨⟨t, htm, htk⟩, hsum⟩ := mem_aggregateSum (hmemagg hg)
    refine ⟨⟨t, ?_, ?_, htk⟩, ?_, ?_⟩
    · rw [hmatched] at htm
      exact (List.mem_filter.1 htm).1
    · rw [hmatched] at htm
      exact (List.mem_filter.1 htm).2
    · rw [← hmatched]
      exact hsum
    · rw [hamount_eq]
  · intro hpos
    rw [hamount_eq] at hpos
    rw [hrows2, List.map_map]
    show (sorted.map (fun g =>
        if (sorted.map (fun g2 => g2.2)).sum > 0
          then g.2 / (sorted.map (fun g2 => g2.2)).sum * 100 else 0)).sum = 100
    have hcong : sorted.map (fun g =>
        if (sorted.map (fun g2 => g2.2)).sum > 0
          then g.2 / (sorted.map (fun g2 => g2.2)).sum * 100 else 0)
        = sorted.map (fun g =>
            g.2 * (((sorted.map (fun g2 => g2.2)).sum)⁻¹ * 100)) := by
      apply List.map_congr_left
      intro g _
      rw [if_pos hpos]
      ring
    rw [hcong, List.sum_map_mul_right, ← mul_assoc,
      mul_inv_cancel₀ (ne_of_gt hpos), one_mul]
  · intro hnz hS0
    cases hsl : sorted with
    | nil =>
      rw [hrows2, hsl]
      rfl
    | cons g rest =>
      exfalso
      rw [hamount_eq, hsl] at hS0
      have hg2 : 0 < g.2 := hposall hnz g (by rw [hsl]; exact List.mem_cons_self _ _)
      have hrest : 0 ≤ (rest.map (fun g2 => g2.2)).sum := by
        apply List.sum_nonneg
        intro x hx
        obtain ⟨g2, hg2r, rfl⟩ := List.mem_map.1 hx
        exact le_of_lt (hposall hnz g2 (by rw [hsl]; exact List.mem_cons_of_mem _ hg2r))
      simp only [List.map_cons, List.sum_cons] at hS0
      linarith
  · intro r hr hnone
    rw [hrows2] at hr
    obtain ⟨g, hg, rfl⟩ := List.mem_map.1 hr
    have hlook : catLookup (cats.filter (fun c => c.userId == uid)) g.1 = none := by
      unfold catLookup
      apply List.find?_eq_none.2
      intro c hc
      have hc2 : c ∈ cats.filter (fun c => c.userId == uid) :=
        List.mem_reverse.1 hc
      have hmemf := List.mem_filter.1 hc2
      have huid : c.userId = uid := by simpa using hmemf.2
      simp only [decide_eq_true_eq]
      exact hnone c hmemf.1 huid
    constructor
    · show (catLookup (cats.filter (fun c => c.userId == uid)) g.1).map
        (fun c => c.color) = none
      rw [hlook]
      rfl
    · show (catLookup (cats.filter (fun c => c.userId == uid)) g.1).map
        (fun c => c.icon) = none
      rw [hlook]
      rfl

/-- C3 witness: two expense categories (300 Rent, 100 Food) — rows are
sorted descending, the percentages are 75 and 25 summing to 100 by the
theorem applied at this input. -/
theorem C3_category_spending_witness :
    getCategorySpending
        [⟨1, ⟨2025, 6, 11, 0⟩, "Food", 100, TxType.expense⟩,
         ⟨1, ⟨2025, 6, 12, 0⟩, "Rent", 300, TxType.expense⟩]
        [⟨1, "Food", "#f00", "pizza"⟩] 1 none none
      = [⟨"Rent", 300, 75, none, none⟩, ⟨"Food", 100, 25, some "#f00", some "pizza"⟩]
    ∧ ((getCategorySpending
        [⟨1, ⟨2025, 6, 11, 0⟩, "Food", 100, TxType.expense⟩,
         ⟨1, ⟨2025, 6, 12, 0⟩, "Rent", 300, TxType.expense⟩]
        [⟨1, "Food", "#f00", "pizza"⟩] 1 none none).map
          (fun x => x.percentage)).sum = 100 :=
  ⟨by with_unfolding_all decide,
   (C3_category_spending
      [⟨1, ⟨2025, 6, 11, 0⟩, "Food", 100, TxType.expense⟩,
       ⟨1, ⟨2025, 6, 12, 0⟩, "Rent", 300, TxType.expense⟩]
      [⟨1, "Food", "#f00", "pizza"⟩] 1 none none _ rfl).2.2.1
     (by with_unfolding_all decide)⟩

/-- C7: every bucket of `getMonthlySummary` satisfies
`net = income - expenses` with `expenses` a non-negative magnitude; the
bucket labels are exactly the "YYYY-MM" renderings (zero-padded month)
of an ascending-sorted list of (year, month) keys, each of which stems
from at least one matched transaction — calendar months with no activity
are omitted, never zero-filled. -/
theorem C7_monthly_summary_shape (txns : List Txn) (now : DateTime)
    (uid : Nat) (months : Nat) (rows : List MonthlyData)
    (hrows : rows = getMonthlySummary txns now uid months) :
    (∀ b ∈ rows, b.net = b.income - b.expenses ∧ 0 ≤ b.expenses)
    ∧ (∃ ks : List (Int × Nat), List.Sorted ymKeyLe ks
        ∧ rows.map (fun b => b.month) = ks.map fmtYM
        ∧ (∀ k ∈ ks, ∃ t ∈ txns,
            inWindow uid (setMonthSub now months) now t = true
            ∧ (t.date.year, t.date.month) = k)) := by
  obtain ⟨matched, hmatched⟩ :
      ∃ l, l = txns.filter (inWindow uid (setMonthSub now months) now) := ⟨_, rfl⟩
  obtain ⟨sortedKeys, hkeys⟩ : ∃ s, s = List.insertionSort ymKeyLe
      ((matched.map (fun t => ((t.date.year, t.date.month) : Int × Nat))).dedup) :=
    ⟨_, rfl⟩
  have hrows2 : rows = sortedKeys.map (fun k =>
      { month := fmtYM k,
        income := ((matched.filter (fun t =>
            ((t.date.year, t.date.month) : Int × Nat) = k)).map
          (fun t => if t.type = TxType.income then t.amount else 0)).sum,
        expenses := |((matched.filter (fun t =>
            ((t.date.year, t.date.month) : Int × Nat) = k)).map
          (fun t => if t.type = TxType.expense then t.amount else 0)).sum|,
        net := ((matched.filter (fun t =>
            ((t.date.year, t.date.month) : Int × Nat) = k)).map
          (fun t => if t.type = TxType.income then t.amount else 0)).sum
          - |((matched.filter (fun t =>
              ((t.date.year, t.date.month) : Int × Nat) = k)).map
            (fun t => if t.type = TxType.expense then t.amount else 0)).sum| }) := by
    rw [hrows, hkeys, hmatched]
    rfl
  constructor
  · intro b hb
    rw [hrows2] at hb
    obtain ⟨k, _, rfl⟩ := List.mem_map.1 hb
    exact ⟨rfl, abs_nonneg _⟩
  · refine ⟨sortedKeys, ?_, ?_, ?_⟩
    · rw [hkeys]
      exact List.sorted_insertionSort ymKeyLe _
    · rw [hrows2, List.map_map]
      rfl
    · intro k hk
      rw [hkeys] at hk
      have hk2 := List.mem_dedup.1 ((List.mem_insertionSort _).1 hk)
      obtain ⟨t, htm, hkt⟩ := List.mem_map.1 hk2
      rw [hmatched] at htm
      have hmemf := List.mem_filter.1 htm
      exact ⟨t, hmemf.1, hmemf.2, hkt⟩

/-- C7 witness: one income of 300 and one expense of 100 in the same
month give exactly one bucket {income 300, expenses 100, net 200}, and
the theorem instantiates on that bucket. -/
theorem C7_monthly_summary_shape_witness :
    getMonthlySummary [⟨1, ⟨2025, 6, 10, 0⟩, "Salary", 300, TxType.income⟩,
        ⟨1, ⟨2025, 6, 11, 0⟩, "Food", 100, TxType.expense⟩] ⟨2025, 6, 15, 0⟩ 1 6
      = [⟨"2025-06", 300, 100, 200⟩]
    ∧ (⟨"2025-06", (300 : ℚ), 100, 200⟩ : MonthlyData).net
        = (⟨"2025-06", (300 : ℚ), 100, 200⟩ : MonthlyData).income
          - (⟨"2025-06", (300 : ℚ), 100, 200⟩ : MonthlyData).expenses :=
  ⟨by with_unfolding_all decide,
   ((C7_monthly_summary_shape
      [⟨1, ⟨2025, 6, 10, 0⟩, "Salary", 300, TxType.income⟩,
       ⟨1, ⟨2025, 6, 11, 0⟩, "Food", 100, TxType.expense⟩] ⟨2025, 6, 15, 0⟩ 1 6
      _ rfl).1 ⟨"2025-06", (300 : ℚ), 100, 200⟩
      (by with_unfolding_all decide)).1⟩

set_option maxRecDepth 100000 in
/-- C1 counterexample: in `getMonthlySummary` the per-transaction abs
rule does not hold — the pipeline sums the raw signed amount per type
(`$cond` on `$type`, no `$abs`), and only the expense total is run
through `Math.abs` after summation. A stored income of -50 contributes
-50 (not `|-50| = 50`) to its month's income total. -/
theorem C1_counterexample :
    getMonthlySummary [⟨1, ⟨2025, 6, 10, 0⟩, "Salary", -50, TxType.income⟩]
        ⟨2025, 6, 15, 0⟩ 1 6
      = [⟨"2025-06", -50, 0, -50⟩]
    ∧ (-50 : ℚ) ≠ |(-50 : ℚ)| := by
  refine ⟨?_, by decide⟩
  with_unfolding_all decide

/-- C1 amended: `getCategorySpending` (and the other `$abs`-based
pipelines it stands for) makes every transaction contribute `|amount|`
to its category's sum; `getMonthlySummary` instead sums raw signed
amounts per type and reports `|sum|` for expenses, which agrees with the
spec's abs-rule variant exactly when all stored amounts are non-negative
(the schema's `amount ≥ 0.01` invariant). -/
theorem C1_abs_rule_amended (txns : List Txn) (now : DateTime) (uid : Nat)
    (months : Nat) (cats : List Cat) (sd ed : Option DateTime) :
    ((∀ t ∈ txns, 0 ≤ t.amount) →
      getMonthlySummary txns now uid months
        = specAbsMonthlySummary txns now uid months)
    ∧ (∀ r ∈ getCategorySpending txns cats uid sd ed,
        r.amount = (((txns.filter (catSpendMatch uid sd ed)).filter
          (fun t => t.category = r.category)).map (fun t => |t.amount|)).sum) := by
  constructor
  · intro hnn
    simp only [getMonthlySummary, specAbsMonthlySummary]
    apply List.map_congr_left
    intro k hk
    have hsub : ∀ t ∈ (txns.filter
        (inWindow uid (setMonthSub now months) now)).filter
          (fun t => ((t.date.year, t.date.month) : Int × Nat) = k),
        0 ≤ t.amount := by
      intro t ht
      exact hnn t (List.mem_filter.1 (List.mem_filter.1 ht).1).1
    have h1 : (((txns.filter (inWindow uid (setMonthSub now months) now)).filter
          (fun t => ((t.date.year, t.date.month) : Int × Nat) = k)).map
        (fun t => if t.type = TxType.income then t.amount else 0)).sum
        = (((txns.filter (inWindow uid (setMonthSub now months) now)).filter
            (fun t => ((t.date.year, t.date.month) : Int × Nat) = k)).map
          (fun t => if t.type = TxType.income then |t.amount| else 0)).sum := by
      congr 1
      apply List.map_congr_left
      intro t ht
      by_cases hty : t.type = TxType.income
      · simp [hty, abs_of_nonneg (hsub t ht)]
      · simp [hty]
    have h2raw : (((txns.filter (inWindow uid (setMonthSub now months) now)).filter
          (fun t => ((t.date.year, t.date.month) : Int × Nat) = k)).map
        (fun t => if t.type = TxType.expense then t.amount else 0)).sum
        = (((txns.filter (inWindow uid (setMonthSub now months) now)).filter
            (fun t => ((t.date.year, t.date.month) : Int × Nat) = k)).map
          (fun t => if t.type = TxType.expense then |t.amount| else 0)).sum := by
      congr 1
      apply List.map_congr_left
      intro t ht
      by_cases hty : t.type = TxType.expense
      · simp [hty, abs_of_nonneg (hsub t ht)]
      · simp [hty]
    have h2 : |(((txns.filter (inWindow uid (setMonthSub now months) now)).filter
          (fun t => ((t.date.year, t.date.month) : Int × Nat) = k)).map
        (fun t => if t.type = TxType.expense then t.amount else 0)).sum|
        = (((txns.filter (inWindow uid (setMonthSub now months) now)).filter
            (fun t => ((t.date.year, t.date.month) : Int × Nat) = k)).map
          (fun t => if t.type = TxType.expense then |t.amount| else 0)).sum := by
      rw [h2raw]
      apply abs_of_nonneg
      apply List.sum_nonneg
      intro x hx
      obtain ⟨t, _, rfl⟩ := List.mem_map.1 hx
      by_cases hty : t.type = TxType.expense
      · simp [hty]
      · simp [hty]
    rw [h1, h2]
  · intro r hr
    simp only [getCategorySpending] at hr
    obtain ⟨g, hg, rfl⟩ := List.mem_map.1 hr
    obtain ⟨_, hsum⟩ := mem_aggregateSum ((List.mem_insertionSort _).1 hg)
    exact hsum

/-- C1 witness: with the non-negative amounts the schema guarantees, the
monthly summary coincides with the spec's abs-rule variant on a concrete
mixed store. -/
theorem C1_abs_rule_amended_witness :
    getMonthlySummary [⟨1, ⟨2025, 6, 10, 0⟩, "Salary", 300, TxType.income⟩,
        ⟨1, ⟨2025, 6, 11, 0⟩, "Food", 100, TxType.expense⟩] ⟨2025, 6, 15, 0⟩ 1 6
      = specAbsMonthlySummary
        [⟨1, ⟨2025, 6, 10, 0⟩, "Salary", 300, TxType.income⟩,
         ⟨1, ⟨2025, 6, 11, 0⟩, "Food", 100, TxType.expense⟩] ⟨2025, 6, 15, 0⟩ 1 6 :=
  (C1_abs_rule_amended
      [⟨1, ⟨2025, 6, 10, 0⟩, "Salary", 300, TxType.income⟩,
       ⟨1, ⟨2025, 6, 11, 0⟩, "Food", 100, TxType.expense⟩]
      ⟨2025, 6, 15, 0⟩ 1 6 [] none none).1 (by
    intro t ht
    rcases List.mem_cons.1 ht with h | h
    · rw [h]
      decide
    · rcases List.mem_cons.1 h with h2 | h2
      · rw [h2]
        decide
      · cases h2)

theorem updateBudgetCommit_mismatch (budgets : List Budget) (budgetId : Nat)
    (u : BudgetUpdate) (existing : Budget) (l : List CatBudget) (tb : ℚ)
    (hl : u.categoryBudgets = some l) (htb : u.totalBudget = some tb)
    (hnz : tb ≠ 0) (hne : (l.map (fun cb => cb.budget)).sum ≠ tb) :
    updateBudgetCommit budgets budgetId u existing
      = (budgets,
         Except.error "Total budget must equal the sum of category budgets") := by
  unfold updateBudgetCommit
  rw [hl, htb]
  have h1 : (Option.isSome (some l) && jsTruthyQ (some tb)) = true := by
    simp [jsTruthyQ, hnz]
  rw [if_pos h1, Option.getD_some,
    if_pos (fun h => hne (Option.some.inj h).symm)]

set_option maxRecDepth 100000 in
/-- C9 counterexample: the claim says `updateBudget` rejects any update
that would leave the stored budget violating
`totalBudget = Σ categoryBudgets[].budget`. It does not: an update
supplying only `categoryBudgets` skips the validation (the code checks
only when `categoryBudgets && totalBudget` are both truthy), succeeds,
and leaves a stored budget with `totalBudget = 100` whose category
budgets sum to 50. -/
theorem C9_counterexample :
    (updateBudget [⟨0, 7, ⟨2025, 1, 1, 0⟩, 100, [⟨"A", 100, 0⟩], "USD"⟩] 0
        ⟨none, none, some [⟨"A", 50, 0⟩], none⟩ 7).2
      = Except.ok (⟨0, 7, ⟨2025, 1, 1, 0⟩, 100, [⟨"A", 50, 0⟩], "USD"⟩ : Budget)
    ∧ (updateBudget [⟨0, 7, ⟨2025, 1, 1, 0⟩, 100, [⟨"A", 100, 0⟩], "USD"⟩] 0
        ⟨none, none, some [⟨"A", 50, 0⟩], none⟩ 7).1
      = [⟨0, 7, ⟨2025, 1, 1, 0⟩, 100, [⟨"A", 50, 0⟩], "USD"⟩]
    ∧ (100 : ℚ) ≠ (([⟨"A", 50, 0⟩] : List CatBudget).map (fun cb => cb.budget)).sum := by
  refine ⟨?_, ?_, ?_⟩
  · with_unfolding_all rfl
  · with_unfolding_all rfl
  · with_unfolding_all decide

/-- C9 amended: `createBudget` does enforce the invariant — any created
budget satisfies `totalBudget = Σ categoryBudgets[].budget` (a missing
`categoryBudgets` counts as sum 0), and a rejected create leaves the
store unchanged. `updateBudget` enforces it only when the update
supplies both a `categoryBudgets` list and a nonzero `totalBudget`
(JS truthiness: `totalBudget = 0` skips the check, as does supplying
only one field): under those conditions a mismatched update is rejected
with the store unchanged. -/
theorem C9_invariant_amended (budgets : List Budget) (data : BudgetInput)
    (uid newId budgetId : Nat) (u : BudgetUpdate) :
    (∀ st b, createBudget budgets data uid newId = (st, Except.ok b) →
      b.totalBudget = (b.categoryBudgets.map (fun cb => cb.budget)).sum)
    ∧ (∀ st msg, createBudget budgets data uid newId = (st, Except.error msg) →
        st = budgets)
    ∧ (∀ l tb, u.categoryBudgets = some l → u.totalBudget = some tb →
        tb ≠ 0 → (l.map (fun cb => cb.budget)).sum ≠ tb →
        (updateBudget budgets budgetId u uid).1 = budgets
        ∧ ∃ msg, (updateBudget budgets budgetId u uid).2 = Except.error msg) := by
  refine ⟨?_, ?_, ?_⟩
  · intro st b h
    simp only [createBudget] at h
    cases hfind : budgets.find? (fun b2 => b2.userId == uid && b2.month == data.month) with
    | some existing =>
      rw [hfind] at h
      injection h with h1 h2
      exact Except.noConfusion h2
    | none =>
      rw [hfind] at h
      split_ifs at h with hc
      · injection h with h1 h2
        exact Except.noConfusion h2
      · injection h with h1 h2
        injection h2 with h3
        rw [← h3]
        cases hcb : data.categoryBudgets with
        | none => simp [hcb]
        | some l => simp [hcb]
  · intro st msg h
    simp only [createBudget] at h
    cases hfind : budgets.find? (fun b2 => b2.userId == uid && b2.month == data.month) with
    | some existing =>
      rw [hfind] at h
      injection h with h1 h2
      exact h1.symm
    | none =>
      rw [hfind] at h
      split_ifs at h with hc
      · injection h with h1 h2
        exact h1.symm
      · injection h with h1 h2
        exact Except.noConfusion h2
  · intro l tb hl htb hnz hne
    cases hfind : budgets.find? (fun b => b.id == budgetId && b.userId == uid) with
    | none =>
      simp only [updateBudget, hfind]
      exact ⟨trivial, _, rfl⟩
    | some existing =>
      cases hm : u.month with
      | some m =>
        by_cases hdup : (budgets.find? (fun b =>
            b.userId == uid && b.month == m && !(b.id == budgetId))).isSome
        · simp only [updateBudget, hfind, hm, hdup, if_true]
          exact ⟨trivial, _, rfl⟩
        · have hdup2 : (budgets.find? (fun b =>
              b.userId == uid && b.month == m && !(b.id == budgetId))).isSome = false := by
            simpa using hdup
          simp only [updateBudget, hfind, hm, hdup2, Bool.false_eq_true, if_false,
            updateBudgetCommit_mismatch budgets budgetId u existing l tb hl htb hnz hne]
          exact ⟨trivial, _, rfl⟩
      | none =>
        simp only [updateBudget, hfind, hm,
          updateBudgetCommit_mismatch budgets budgetId u existing l tb hl htb hnz hne]
        exact ⟨trivial, _, rfl⟩

/-- C9 witness: a mismatched update that does supply both fields
(`totalBudget = 80`, category budgets summing to 50) is rejected and the
store is unchanged, by the theorem applied at this input. -/
theorem C9_invariant_amended_witness :
    (updateBudget [⟨0, 7, ⟨2025, 1, 1, 0⟩, 100, [⟨"A", 100, 0⟩], "USD"⟩] 0
        ⟨none, some 80, some [⟨"A", 50, 0⟩], none⟩ 7).1
      = [⟨0, 7, ⟨2025, 1, 1, 0⟩, 100, [⟨"A", 100, 0⟩], "USD"⟩]
    ∧ ∃ msg, (updateBudget [⟨0, 7, ⟨2025, 1, 1, 0⟩, 100, [⟨"A", 100, 0⟩], "USD"⟩] 0
        ⟨none, some 80, some [⟨"A", 50, 0⟩], none⟩ 7).2 = Except.error msg :=
  (C9_invariant_amended [⟨0, 7, ⟨2025, 1, 1, 0⟩, 100, [⟨"A", 100, 0⟩], "USD"⟩]
      ⟨⟨2025, 1, 1, 0⟩, none, none, "USD"⟩ 7 1 0
      ⟨none, some 80, some [⟨"A", 50, 0⟩], none⟩).2.2
    [⟨"A", 50, 0⟩] 80 rfl rfl (by decide) (by with_unfolding_all decide)

set_option maxRecDepth 100000 in
/-- C4 counterexample: the `$match` of `getSpendingTrends` has only a
lower date bound, so a transaction dated after the current instant —
outside any trailing-twelve-month window ending now — is still
aggregated: with `now` = June 15 2025, an expense dated January 5 2026
produces a trend point. -/
theorem C4_counterexample :
    getSpendingTrends [⟨1, ⟨2026, 1, 5, 0⟩, "Food", 5, TxType.expense⟩]
        ⟨2025, 6, 15, 0⟩ 1 Period.month
      = [⟨"2026-01", 5, 0⟩]
    ∧ dtLe ⟨2025, 6, 15, 0⟩ ⟨2026, 1, 5, 0⟩ = true := by
  refine ⟨?_, by decide⟩
  with_unfolding_all decide
